import Mathlib

/-!
Shallow embedding of the Ambientika Home Assistant integration
(custom_components/ambientika), covering:

* `hub.py` — `AmbientikaHub._async_update_data` (cache/TTL update step);
* `api.py` — `AmbientikaApiClient.async_get_data` and `_ensure_client`;
* `enhanced_hub.py` — `EnhancedAmbientikaHub._process_device_zone_data`
  and `get_device_role_in_zone`;
* `zone_master_select.py` — `_map_internal_role_to_api`,
  `_create_house_config_with_updated_roles`, `_try_alternative_role_update`
  and its three strategies.

Python `None`-able values are modelled with `Option`; Python dictionaries
keyed by serial number or zone index are modelled as functions into `Option`;
exceptions are modelled with `Option`/sum types; the event loop clock is an
`Int` parameter; HTTP traffic is an oracle `Nat → Bool` (the result of the
i-th HTTP call made, `true` = vendor `Success`) together with an index that
counts the calls already made.
-/

/-- Python `a or b` on optional strings: `a` when it is present and non-empty
(truthy), otherwise `b`.  Mirrors `get_value(x, k1) or get_value(x, k2)`. -/
def pyOrStr (a b : Option String) : Option String :=
  match a with
  | some s => if s = "" then b else some s
  | none => b

/-- Python `a or b` on optional numbers: `a` when present and non-zero
(truthy), otherwise `b`. -/
def pyOrNat (a b : Option Nat) : Option Nat :=
  match a with
  | some n => if n = 0 then b else some n
  | none => b

/-- Python truthiness filter for an optional string: keep it only when it is
present and non-empty. -/
def pyTruthyStr (a : Option String) : Option String :=
  match a with
  | some s => if s = "" then none else some s
  | none => none

/-- Python `s.lower()`: lower-case every character. -/
def pyLower (s : String) : String := String.mk (s.data.map Char.toLower)

/-- Python `s.strip()`: drop leading and trailing whitespace. -/
def pyStrip (s : String) : String :=
  String.mk
    (((s.data.dropWhile Char.isWhitespace).reverse.dropWhile
      Char.isWhitespace).reverse)

/-- Overwrite a function-backed map at one key (Python `d[k] = v`). -/
def setMap {α β : Type} [DecidableEq α] (f : α → Option β) (k : α) (v : β) :
    α → Option β :=
  fun x => if x = k then some v else f x

/-- Map a fallible step over a list, in order, aborting at the first
failure: the shape of a Python `for` loop that builds a result list but may
raise on any element (the exception propagating to an outer handler). -/
def mapOrNone {α β : Type} (f : α → Option β) : List α → Option (List β)
  | [] => some []
  | a :: l =>
    match f a with
    | none => none
    | some b =>
      match mapOrNone f l with
      | none => none
      | some bs => some (b :: bs)

/-! ## `zone_master_select.py`: `_map_internal_role_to_api` -/

/-- `ZoneMasterDeviceSelectBase._map_internal_role_to_api`
(zone_master_select.py lines 725–739): lower-case and strip the internal
role, look it up in `role_mapping`, defaulting to `"SlaveOppositeMaster"`. -/
def _map_internal_role_to_api (internal_role : String) : String :=
  let normalized_role := pyStrip (pyLower internal_role)
  if normalized_role = "master" then "Master"
  else if normalized_role = "slave" then "SlaveOppositeMaster"
  else if normalized_role = "slaveequalmaster" then "SlaveEqualMaster"
  else if normalized_role = "slaveoppositemaster" then "SlaveOppositeMaster"
  else if normalized_role = "notconfigured" then "NotConfigured"
  else "SlaveOppositeMaster"

/-! ## Shared device model

A vendor `Device` as the hub sees it: `serial_number` is always present on a
vendor device, while `zone_index` and `role` are read through `getattr`
with defaults (`enhanced_hub.py` lines 154–156), so they are optional. -/

structure Device where
  serial_number : String
  name : String
  zone_index : Option Nat
  role : Option String
deriving DecidableEq, Repr

/-! ## `hub.py`: `AmbientikaHub._async_update_data` (lines 75–122)

The mutable hub attributes touched by `_async_update_data`.  `client` is
`true` when `self.client` is set, `false` when it is `None`. -/

structure HubState where
  client : Bool
  lastUpdateTime : Int
  cachedData : Option (List Device)
deriving DecidableEq, Repr

/-- `self._min_time_between_updates = 30` (hub.py line 51). -/
def minTimeBetweenUpdates : Int := 30

/-- Outcome of one call to `AmbientikaApiClient.async_get_data` as seen from
the hub: a device list, or one of the two exception types the hub catches
(`AmbientikaApiClientAuthenticationError`, `AmbientikaApiClientError`;
api.py raises no other exception type out of `async_get_data`). -/
inductive FetchResult where
  | ok (devices : List Device)
  | authError
  | apiError
deriving DecidableEq, Repr

/-- What one call to `_async_update_data` produces: a device list returned
normally, or one of the two wrapped exceptions it raises
(hub.py lines 115–122). -/
inductive UpdateOutcome where
  | ok (devices : List Device)
  | configEntryAuthFailed
  | updateFailed
deriving DecidableEq, Repr

/-- `AmbientikaHub._async_update_data` (hub.py lines 75–122), state-passing.

`fetches` is the oracle of outcomes of successive `async_get_data` calls;
the function consumes its head only when it actually contacts the API, and
returns the unconsumed remainder (`none` only for the artificial case of an
exhausted oracle, which no real run hits).  The per-device `device.status()`
loop (lines 93–108) only mutates the device objects and swallows its own
errors, so it does not affect the hub state modelled here. -/
def asyncUpdateData (st : HubState) (currentTime : Int)
    (fetches : List FetchResult) :
    Option (UpdateOutcome × HubState × List FetchResult) :=
  if st.cachedData.isSome ∧
      currentTime - st.lastUpdateTime < minTimeBetweenUpdates then
    some (UpdateOutcome.ok (st.cachedData.getD []), st, fetches)
  else
    match fetches with
    | [] => none
    | FetchResult.ok devices :: rest =>
        some (UpdateOutcome.ok devices,
          { st with cachedData := some devices, lastUpdateTime := currentTime },
          rest)
    | FetchResult.authError :: rest =>
        some (UpdateOutcome.configEntryAuthFailed,
          { st with client := false, cachedData := none }, rest)
    | FetchResult.apiError :: rest =>
        some (UpdateOutcome.updateFailed,
          { st with cachedData := none }, rest)

/-! ## `api.py`: `AmbientikaApiClient.async_get_data` (lines 185–257)

The vendor `houses()` payload as the traversal at lines 210–229 reads it.
`none` entries model Python `None` elements (`if not house`, `if not room`),
and a `none` field models a missing attribute (`hasattr` guards). -/

structure ApiRoom where
  name : String
  devices : Option (List (Option Device))
deriving DecidableEq, Repr

structure ApiHouse where
  name : String
  rooms : Option (List (Option ApiRoom))
deriving DecidableEq, Repr

/-- The inner room iteration of `async_get_data` (api.py lines 220–226):
skip `None` rooms and rooms without a `devices` attribute, otherwise
`devices.extend([d for d in room.devices if d])`. -/
def collectRoomStep (acc : List Device) (orm : Option ApiRoom) :
    List Device :=
  match orm with
  | none => acc
  | some room =>
    match room.devices with
    | none => acc
    | some ds => acc ++ ds.filterMap id

/-- The outer house iteration of `async_get_data` (api.py lines 211–226):
skip `None` houses and houses without a `rooms` attribute, otherwise run the
room loop. -/
def collectHouseStep (acc : List Device) (oh : Option ApiHouse) :
    List Device :=
  match oh with
  | none => acc
  | some house =>
    match house.rooms with
    | none => acc
    | some rooms => rooms.foldl collectRoomStep acc

/-- The accumulation loop of `async_get_data` (api.py lines 210–229),
starting from `devices = []`. -/
def collectDevices (house_list : List (Option ApiHouse)) : List Device :=
  house_list.foldl collectHouseStep []

/-- `AmbientikaApiClient.async_get_data`, success path (api.py lines
201–229): `if not house_list: return []`, otherwise the flattening loop.
Failure paths raise `AmbientikaApiClientError` and are modelled in the hub
layer by `FetchResult.apiError`. -/
def async_get_data (house_list : List (Option ApiHouse)) : List Device :=
  if house_list.isEmpty then [] else collectDevices house_list

/-- The flat list the claim describes: all non-null devices of every room of
every house, in house-then-room traversal order. -/
def specDeviceFlatten (house_list : List (Option ApiHouse)) : List Device :=
  (house_list.filterMap id).flatMap fun house =>
    ((house.rooms.getD []).filterMap id).flatMap fun room =>
      (room.devices.getD []).filterMap id

/-! ## `api.py`: `AmbientikaApiClient._ensure_client` (lines 52–129) -/

/-- Outcome of one `authenticate(...)` attempt inside the retry loop:
a usable client, an authentication `Failure` (line 79), or an
`aiohttp.ClientError`/`asyncio.TimeoutError` (line 106). -/
inductive AuthAttempt where
  | success
  | authFailure
  | connError
deriving DecidableEq, Repr

/-- Result type of `_ensure_client`: normal return, or one of the two
exception types it raises. -/
inductive EnsureResult where
  | ok
  | authError
  | apiError
deriving DecidableEq, Repr

/-- `max_retries = 2` (api.py line 68). -/
def maxRetries : Nat := 2

/-- `wait_time = min(5 + retry_count * 3, 15)` (api.py line 110): the
backoff slept before retrying after the `retry_count`-th failed attempt. -/
def backoffWaitTime (retry_count : Nat) : Nat := min (5 + retry_count * 3) 15

/-- The `while retry_count < max_retries` loop of `_ensure_client`
(api.py lines 72–129).  Each iteration consumes one `AuthAttempt`:

* `success`: the client is stored and the loop breaks (line 85, 104) —
  result `(ok, client present, session present, rest)`;
* `authFailure`: `AmbientikaApiClientAuthenticationError` is raised
  (line 81), lands in `except Exception` (line 121) which closes the session,
  clears `_api_client` and re-raises it unchanged (lines 123–128) — no retry;
* `connError`: `retry_count` is incremented; if still below `max_retries`
  the loop sleeps `backoffWaitTime retry_count` and retries, else the session
  and client are cleared and `AmbientikaApiClientError` is raised
  (lines 106–120).

Result components: `(result, api_client is set, session is set, unconsumed
attempts)`.  `none` models only an exhausted oracle, not a real run. -/
def ensureClientLoop : List AuthAttempt → Nat →
    Option (EnsureResult × Bool × Bool × List AuthAttempt)
  | _, 0 => none
  | attempts, fuel + 1 =>
    match attempts with
    | [] => none
    | AuthAttempt.success :: rest => some (EnsureResult.ok, true, true, rest)
    | AuthAttempt.authFailure :: rest =>
        some (EnsureResult.authError, false, false, rest)
    | AuthAttempt.connError :: rest =>
        if fuel = 0 then some (EnsureResult.apiError, false, false, rest)
        else ensureClientLoop rest fuel

/-- `AmbientikaApiClient._ensure_client` (api.py lines 52–129): a no-op when
`self._api_client` is already set (line 54), otherwise the retry loop with
`retry_count = 0` and `max_retries = 2` (so `maxRetries` iterations of
fuel). -/
def ensureClient (apiClientSet sessionSet : Bool)
    (attempts : List AuthAttempt) :
    Option (EnsureResult × Bool × Bool × List AuthAttempt) :=
  if apiClientSet then some (EnsureResult.ok, true, sessionSet, attempts)
  else ensureClientLoop attempts maxRetries

/-! ## `enhanced_hub.py`: zone maps (lines 80–204) -/

/-- The three zone dictionaries of `EnhancedAmbientikaHub`
(enhanced_hub.py lines 81–83), as function-backed maps. -/
structure ZoneState where
  device_zones : String → Option Nat
  zone_masters : Nat → Option String
  zone_slaves : Nat → Option (List String)

/-- The freshly initialised maps (enhanced_hub.py lines 81–83). -/
def emptyZoneState : ZoneState :=
  { device_zones := fun _ => none
    zone_masters := fun _ => none
    zone_slaves := fun _ => none }

/-- One iteration of the `for device in self.devices` loop of
`_process_device_zone_data` (enhanced_hub.py lines 152–174):
record the device's zone, initialise the zone's slave list if absent,
then record the device as master (`role == 'master'`) or append it to the
slave list (`role in ['slave', 'slaveequalmaster']`). -/
def processDeviceZone (st : ZoneState) (device : Device) : ZoneState :=
  let serial := device.serial_number
  let zone_index := device.zone_index.getD 0
  let role := pyLower (device.role.getD "")
  let st1 : ZoneState :=
    { st with device_zones := setMap st.device_zones serial zone_index }
  let st2 : ZoneState :=
    match st1.zone_slaves zone_index with
    | none => { st1 with zone_slaves := setMap st1.zone_slaves zone_index [] }
    | some _ => st1
  if role = "master" then
    { st2 with zone_masters := setMap st2.zone_masters zone_index serial }
  else if role = "slave" ∨ role = "slaveequalmaster" then
    { st2 with
      zone_slaves :=
        setMap st2.zone_slaves zone_index
          (((st2.zone_slaves zone_index).getD []) ++ [serial]) }
  else st2

/-- `EnhancedAmbientikaHub._process_device_zone_data`
(enhanced_hub.py lines 150–174): the loop over `self.devices`, mutating the
three zone maps in place. -/
def processDeviceZoneData (devices : List Device) (st : ZoneState) :
    ZoneState :=
  devices.foldl processDeviceZone st

/-- `EnhancedAmbientikaHub.get_device_zone` (lines 176–178):
`self._device_zones.get(serial_number, 0)`. -/
def get_device_zone (st : ZoneState) (serial_number : String) : Nat :=
  (st.device_zones serial_number).getD 0

/-- `EnhancedAmbientikaHub.get_zone_slaves` (lines 184–186):
`self._zone_slaves.get(zone_index, [])`. -/
def get_zone_slaves (st : ZoneState) (zone_index : Nat) : List String :=
  (st.zone_slaves zone_index).getD []

/-- `EnhancedAmbientikaHub.get_device_role_in_zone` (lines 197–204). -/
def get_device_role_in_zone (st : ZoneState) (serial_number : String) :
    String :=
  let zone := get_device_zone st serial_number
  if st.zone_masters zone = some serial_number then "Master"
  else if serial_number ∈ get_zone_slaves st zone then "Slave"
  else "Unknown"

/-! ## `zone_master_select.py`: `_create_house_config_with_updated_roles`
(lines 566–723)

The house payload in its dictionary form (`get_value` reads attributes and
dictionary keys uniformly; a `none` field models a missing/`None` entry).
`latitude`/`longitude`/`address` are opaque pass-through values, modelled as
strings. -/

structure ZoneDeviceD where
  serialNumber : Option String
  name : Option String
  role : Option String
deriving DecidableEq, Repr

structure ZoneRoomD where
  name : Option String
  devices : Option (List ZoneDeviceD)
deriving DecidableEq, Repr

structure ZoneD where
  id : Option Nat
  name : Option String
  houseId : Option Nat
  rooms : Option (List ZoneRoomD)
deriving DecidableEq, Repr

structure RoomDeviceD where
  id : Option Nat
  serial_number : Option String
  serialNumber : Option String
  name : Option String
  device_type : Option String
  deviceType : Option String
  role : Option String
  zone_index : Option Nat
  zoneIndex : Option Nat
  installation : Option String
deriving DecidableEq, Repr

structure HouseRoomD where
  id : Option Nat
  name : Option String
  devices : Option (List RoomDeviceD)
deriving DecidableEq, Repr

structure HouseD where
  id : Option Nat
  name : Option String
  address : Option String
  latitude : Option String
  longitude : Option String
  rooms : Option (List HouseRoomD)
  zones : Option (List ZoneD)
deriving DecidableEq, Repr

/-- One entry of the `house_config["rooms"][i]["devices"]` output
(zone_master_select.py lines 682–714). -/
structure DeviceConfig where
  id : Option Nat
  serialNumber : Option String
  name : Option String
  deviceType : Option String
  roomId : Option Nat
  role : String
  zoneIndex : Option Nat
  installation : Option String
deriving DecidableEq, Repr

/-- One entry of `house_config["rooms"]` (lines 672–716). -/
structure RoomConfig where
  id : Option Nat
  name : Option String
  houseId : Option Nat
  devices : List DeviceConfig
deriving DecidableEq, Repr

/-- One entry of `house_config["zones"]` (lines 622–666): the copied zone
header, plus the copied rooms with updated devices when present. -/
structure ZoneConfig where
  id : Option Nat
  name : Option String
  houseId : Option Nat
  rooms : Option (List ZoneRoomD)
deriving DecidableEq, Repr

/-- The `house_config` result (lines 604–719). -/
structure HouseConfig where
  id : Option Nat
  name : Option String
  address : Option String
  latitude : Option String
  longitude : Option String
  rooms : List RoomConfig
  zones : Option (List ZoneConfig)
deriving DecidableEq, Repr

/-- The zones-array device update (lines 640–662): `dict(zone_device)` copy
with `role` overwritten.  The serial is read from `serialNumber` only.  In
the final branch `current_role = get_value(zone_device, 'role')` may be
`None`, and `_map_internal_role_to_api(None)` raises `AttributeError`
(`None.lower()`), which the outer handler (lines 721–723) turns into a
`None` result for the whole function — modelled by `none` here. -/
def updateZoneDevice (old_master_serial new_master_serial
    new_master_original_role : String) (zd : ZoneDeviceD) :
    Option ZoneDeviceD :=
  if zd.serialNumber = some new_master_serial then
    some { zd with role := some "Master" }
  else if zd.serialNumber = some old_master_serial then
    some { zd with
      role := some (_map_internal_role_to_api new_master_original_role) }
  else
    match zd.role with
    | none => none
    | some current_role =>
        some { zd with role := some (_map_internal_role_to_api current_role) }

/-- The zones-array room update (lines 633–664): `dict(zone_room)` copy;
when `get_value(zone_room, 'devices', [])` is truthy, its devices are
replaced by their updated copies. -/
def updateZoneRoom (old_master_serial new_master_serial
    new_master_original_role : String) (zr : ZoneRoomD) :
    Option ZoneRoomD :=
  let room_devices := zr.devices.getD []
  if room_devices.isEmpty then some zr
  else
    match mapOrNone
        (updateZoneDevice old_master_serial new_master_serial
          new_master_original_role) room_devices with
    | none => none
    | some ds => some { zr with devices := some ds }

/-- One `house_config["zones"]` entry (lines 619–666): copied header, and
`rooms` set only when `get_value(zone, 'rooms')` is truthy. -/
def buildZoneConfig (old_master_serial new_master_serial
    new_master_original_role : String) (zone : ZoneD) : Option ZoneConfig :=
  let base : ZoneConfig :=
    { id := zone.id, name := zone.name, houseId := zone.houseId,
      rooms := none }
  let zone_rooms := zone.rooms.getD []
  if zone_rooms.isEmpty then some base
  else
    match mapOrNone
        (updateZoneRoom old_master_serial new_master_serial
          new_master_original_role) zone_rooms with
    | none => none
    | some rs => some { base with rooms := some rs }

/-- One `house_config["rooms"][i]["devices"]` entry (lines 681–714):
the serial is `get_value(device, 'serial_number') or
get_value(device, 'serialNumber')` (Python `or`), the role follows the
new-master / old-master / mapped-existing-role branches (default role
`'slave'`), `zoneIndex` is added when `zone_index or zoneIndex` is not
`None`, and `installation` when truthy. -/
def buildDeviceConfig (room_id : Option Nat) (old_master_serial
    new_master_serial new_master_original_role : String)
    (d : RoomDeviceD) : DeviceConfig :=
  let device_serial := pyOrStr d.serial_number d.serialNumber
  { id := d.id
    serialNumber := device_serial
    name := d.name
    deviceType := pyOrStr d.device_type (some (d.deviceType.getD "Diamond"))
    roomId := room_id
    role :=
      if device_serial = some new_master_serial then "Master"
      else if device_serial = some old_master_serial then
        _map_internal_role_to_api new_master_original_role
      else _map_internal_role_to_api (d.role.getD "slave")
    zoneIndex := pyOrNat d.zone_index d.zoneIndex
    installation := pyTruthyStr d.installation }

/-- One `house_config["rooms"]` entry (lines 671–716). -/
def buildRoomConfig (house_id : Option Nat) (old_master_serial
    new_master_serial new_master_original_role : String)
    (room : HouseRoomD) : RoomConfig :=
  { id := room.id
    name := room.name
    houseId := house_id
    devices := (room.devices.getD []).map
      (buildDeviceConfig room.id old_master_serial new_master_serial
        new_master_original_role) }

/-- `ZoneMasterDeviceSelectBase._create_house_config_with_updated_roles`
(zone_master_select.py lines 566–723).  Zones are processed before rooms;
an exception while mapping a role-less zone device aborts the function,
which logs and returns `None` (lines 721–723). -/
def _create_house_config_with_updated_roles (house : HouseD)
    (old_master_serial new_master_serial new_master_original_role : String) :
    Option HouseConfig :=
  let zonesPart : Option (Option (List ZoneConfig)) :=
    match house.zones with
    | none => some none
    | some zs =>
      if zs.isEmpty then some none
      else
        match mapOrNone
            (buildZoneConfig old_master_serial new_master_serial
              new_master_original_role) zs with
        | none => none
        | some l => some (some l)
  match zonesPart with
  | none => none
  | some zcs =>
      some { id := house.id
             name := house.name
             address := house.address
             latitude := house.latitude
             longitude := house.longitude
             rooms := (house.rooms.getD []).map
               (buildRoomConfig house.id old_master_serial new_master_serial
                 new_master_original_role)
             zones := zcs }

/-! ## `zone_master_select.py`: `_try_alternative_role_update` (lines
748–777) and its strategies (lines 779–899)

HTTP traffic is an oracle `resp : Nat → Bool`: the i-th HTTP call issued by
the procedure returns vendor `Success` exactly when `resp i`.  Each strategy
maps an entry index to `(result, next index, endpoints called)`. -/

/-- `f"devices/{serial}/role"` (lines 871, 878, 889). -/
def devicesRoleEndpoint (serial : String) : String :=
  "devices/" ++ serial ++ "/role"

/-- `f"zones/{zone}/master"` (line 831). -/
def zoneMasterEndpoint (zone : String) : String :=
  "zones/" ++ zone ++ "/master"

/-- `f"zones/{zone}/configuration"` (line 832). -/
def zoneConfigurationEndpoint (zone : String) : String :=
  "zones/" ++ zone ++ "/configuration"

/-- `f"Device/zone/{zone}/config"` (line 833). -/
def deviceZoneConfigEndpoint (zone : String) : String :=
  "Device/zone/" ++ zone ++ "/config"

/-- Python `str(...)` of an optional zone index (`None` renders as
`"None"` inside an f-string). -/
def zoneIndexStr (zone : Option Nat) : String :=
  match zone with
  | none => "None"
  | some n => toString n

/-- `_try_device_role_update` (lines 862–899): POST the new master's role;
on `Success` POST the old master's role; if that fails, POST a rollback of
the new master's role and report failure.  Reports success only when both
role POSTs succeed. -/
def tryDeviceRoleUpdate (old_serial new_serial : String)
    (resp : Nat → Bool) (i : Nat) : Bool × Nat × List String :=
  if resp i then
    if resp (i + 1) then
      (true, i + 2,
        [devicesRoleEndpoint new_serial, devicesRoleEndpoint old_serial])
    else
      (false, i + 3,
        [devicesRoleEndpoint new_serial, devicesRoleEndpoint old_serial,
         devicesRoleEndpoint new_serial])
  else (false, i + 1, [devicesRoleEndpoint new_serial])

/-- `_try_house_put_update` (lines 779–812): the first statement of its
`try` block calls `self.coordinator.client.get_houses()`, but
`AmbientikaApiClient` defines no `get_houses` method anywhere in the
repository, so the call raises `AttributeError`, the `except` handler at
line 810 returns `False`, and no HTTP request is ever issued. -/
def tryHousePutUpdate (i : Nat) : Bool × Nat × List String :=
  (false, i, [])

/-- `_try_zone_config_update` (lines 814–860): skip (returning `False`)
when the two devices' `zone_index` values differ, otherwise POST to the
three zone endpoints in order, returning `True` at the first `Success`. -/
def tryZoneConfigUpdate (old_master_zone new_master_zone : Option Nat)
    (resp : Nat → Bool) (i : Nat) : Bool × Nat × List String :=
  if old_master_zone ≠ new_master_zone then (false, i, [])
  else
    let z := zoneIndexStr old_master_zone
    if resp i then (true, i + 1, [zoneMasterEndpoint z])
    else if resp (i + 1) then
      (true, i + 2, [zoneMasterEndpoint z, zoneConfigurationEndpoint z])
    else
      (resp (i + 2), i + 3,
        [zoneMasterEndpoint z, zoneConfigurationEndpoint z,
         deviceZoneConfigEndpoint z])

/-- `_try_alternative_role_update` (lines 748–777): Method 1 (individual
device role POSTs), then Method 2 (house PUT), then Method 3 (zone-specific
endpoints), returning `True` as soon as one strategy reports success.
The result carries the overall success flag, the next HTTP-oracle index,
and the ordered list of endpoints actually called. -/
def tryAlternativeRoleUpdate (old_serial new_serial : String)
    (old_master_zone new_master_zone : Option Nat)
    (resp : Nat → Bool) : Bool × Nat × List String :=
  let m1 := tryDeviceRoleUpdate old_serial new_serial resp 0
  if m1.1 then (true, m1.2.1, m1.2.2)
  else
    let m2 := tryHousePutUpdate m1.2.1
    if m2.1 then (true, m2.2.1, m1.2.2 ++ m2.2.2)
    else
      let m3 := tryZoneConfigUpdate old_master_zone new_master_zone resp
        m2.2.1
      (m3.1, m3.2.1, m1.2.2 ++ m2.2.2 ++ m3.2.2)

/-! ## Claim-side definitions for `_create_house_config_with_updated_roles`

These follow the words of the claim ("the device whose serial equals
new_master_serial has role Master, the device whose serial equals
old_master_serial has the API mapping of new_master_original_role, and
every other device keeps its existing role mapped through
`_map_internal_role_to_api`; the same role assignment is applied
consistently ... in both the rooms array and the zones array"), to be
compared with the source-derived definition. -/

/-- The single role-assignment rule of the claim, applied to a device's
serial and existing role. -/
def roleFor (old_master_serial new_master_serial
    new_master_original_role : String) (serial : Option String)
    (existing_role : String) : String :=
  if serial = some new_master_serial then "Master"
  else if serial = some old_master_serial then
    _map_internal_role_to_api new_master_original_role
  else _map_internal_role_to_api existing_role

/-- Claim side, zones array: each zone device keeps its data with its role
assigned by `roleFor` (serial read from `serialNumber`). -/
def specZoneDevice (old_master_serial new_master_serial
    new_master_original_role : String) (zd : ZoneDeviceD) : ZoneDeviceD :=
  { zd with
    role := some (roleFor old_master_serial new_master_serial
      new_master_original_role zd.serialNumber (zd.role.getD "")) }

/-- Claim side, zones array: a zone room with its devices updated when it
has any. -/
def specZoneRoom (old_master_serial new_master_serial
    new_master_original_role : String) (zr : ZoneRoomD) : ZoneRoomD :=
  let room_devices := zr.devices.getD []
  if room_devices.isEmpty then zr
  else
    { zr with
      devices := some (room_devices.map
        (specZoneDevice old_master_serial new_master_serial
          new_master_original_role)) }

/-- Claim side, zones array: one zone of the result. -/
def specZoneConfig (old_master_serial new_master_serial
    new_master_original_role : String) (zone : ZoneD) : ZoneConfig :=
  let zone_rooms := zone.rooms.getD []
  { id := zone.id
    name := zone.name
    houseId := zone.houseId
    rooms :=
      if zone_rooms.isEmpty then none
      else some (zone_rooms.map
        (specZoneRoom old_master_serial new_master_serial
          new_master_original_role)) }

/-- Claim side, rooms array: one device of the result, its role assigned by
the same rule `roleFor` (serial read from `serial_number` or
`serialNumber`, existing role defaulting to `"slave"`). -/
def specRoomDevice (room_id : Option Nat) (old_master_serial
    new_master_serial new_master_original_role : String)
    (d : RoomDeviceD) : DeviceConfig :=
  { id := d.id
    serialNumber := pyOrStr d.serial_number d.serialNumber
    name := d.name
    deviceType := pyOrStr d.device_type (some (d.deviceType.getD "Diamond"))
    roomId := room_id
    role := roleFor old_master_serial new_master_serial
      new_master_original_role (pyOrStr d.serial_number d.serialNumber)
      (d.role.getD "slave")
    zoneIndex := pyOrNat d.zone_index d.zoneIndex
    installation := pyTruthyStr d.installation }

/-- Claim side, rooms array: one room of the result. -/
def specRoomConfig (house_id : Option Nat) (old_master_serial
    new_master_serial new_master_original_role : String)
    (room : HouseRoomD) : RoomConfig :=
  { id := room.id
    name := room.name
    houseId := house_id
    devices := (room.devices.getD []).map
      (specRoomDevice room.id old_master_serial new_master_serial
        new_master_original_role) }

/-- Claim side: the full house configuration, with the one rule `roleFor`
applied to the devices of both the rooms array and the zones array. -/
def specHouseConfig (house : HouseD) (old_master_serial new_master_serial
    new_master_original_role : String) : HouseConfig :=
  { id := house.id
    name := house.name
    address := house.address
    latitude := house.latitude
    longitude := house.longitude
    rooms := (house.rooms.getD []).map
      (specRoomConfig house.id old_master_serial new_master_serial
        new_master_original_role)
    zones :=
      match house.zones with
      | none => none
      | some zs =>
        if zs.isEmpty then none
        else some (zs.map
          (specZoneConfig old_master_serial new_master_serial
            new_master_original_role)) }

/-- A zone device whose role the code can read: it is one of the two master
serials (whose branches never read the existing role) or it carries a
role.  A zone device violating this makes
`_create_house_config_with_updated_roles` raise and return `None`. -/
def zoneDeviceRoleReadable (old_master_serial new_master_serial : String)
    (zd : ZoneDeviceD) : Bool :=
  zd.serialNumber == some new_master_serial ||
    zd.serialNumber == some old_master_serial || zd.role.isSome

/-- All zone devices of the house are readable in the sense of
`zoneDeviceRoleReadable`. -/
def zoneRolesOk (house : HouseD) (old_master_serial
    new_master_serial : String) : Bool :=
  (house.zones.getD []).all fun z =>
    (z.rooms.getD []).all fun r =>
      (r.devices.getD []).all
        (zoneDeviceRoleReadable old_master_serial new_master_serial)

/-! ## Concrete fixtures used by witnesses and counterexamples -/

/-- A room-array device whose serial is the new master's. -/
def fixtureRoomDevice : RoomDeviceD :=
  ⟨some 100, none, some "NEW", some "n", none, none, some "slave", none,
    none, none⟩

/-- A zone-array device that carries a role. -/
def fixtureZoneDeviceOk : ZoneDeviceD := ⟨some "X", some "xd", some "slave"⟩

/-- A zone-array device with no role and a serial that is neither master
serial: mapping its role raises in the source. -/
def fixtureZoneDeviceBad : ZoneDeviceD := ⟨some "X", some "xd", none⟩

/-- A house whose zone devices all carry roles. -/
def fixtureHouseOk : HouseD :=
  ⟨some 1, some "h", none, none, none,
    some [⟨some 10, some "r", some [fixtureRoomDevice]⟩],
    some [⟨some 5, some "z", some 1,
      some [⟨some "zr", some [fixtureZoneDeviceOk]⟩]⟩]⟩

/-- The same house with the role-less zone device instead. -/
def fixtureHouseBad : HouseD :=
  ⟨some 1, some "h", none, none, none,
    some [⟨some 10, some "r", some [fixtureRoomDevice]⟩],
    some [⟨some 5, some "z", some 1,
      some [⟨some "zr", some [fixtureZoneDeviceBad]⟩]⟩]⟩

/-- A two-device zone: a master and a slave sharing zone 1. -/
def fixtureZoneDevices : List Device :=
  [⟨"M", "m", some 1, some "Master"⟩,
   ⟨"S", "s", some 1, some "SlaveEqualMaster"⟩]

/-! ## Helper lemmas -/

theorem mapOrNone_eq_map {α β : Type} (f : α → Option β) (g : α → β) :
    ∀ l : List α, (∀ a ∈ l, f a = some (g a)) →
      mapOrNone f l = some (l.map g) := by
  intro l
  induction l with
  | nil => intro _; rfl
  | cons a t ih =>
    intro h
    have ha := h a (List.mem_cons_self a t)
    have ht := ih fun x hx => h x (List.mem_cons_of_mem a hx)
    simp [mapOrNone, ha, ht]

theorem collectRoomStep_fold :
    ∀ (rl : List (Option ApiRoom)) (acc : List Device),
      rl.foldl collectRoomStep acc =
        acc ++ (rl.filterMap id).flatMap
          (fun room => (room.devices.getD []).filterMap id) := by
  intro rl
  induction rl with
  | nil => intro acc; simp
  | cons orm t ih =>
    intro acc
    cases orm with
    | none => simp [List.foldl_cons, collectRoomStep, ih]
    | some room =>
      cases hd : room.devices with
      | none => simp [List.foldl_cons, collectRoomStep, hd, ih]
      | some ds => simp [List.foldl_cons, collectRoomStep, hd, ih]

theorem collectHouseStep_fold :
    ∀ (hl : List (Option ApiHouse)) (acc : List Device),
      hl.foldl collectHouseStep acc = acc ++ specDeviceFlatten hl := by
  intro hl
  induction hl with
  | nil => intro acc; simp [specDeviceFlatten]
  | cons oh t ih =>
    intro acc
    cases oh with
    | none => simp [List.foldl_cons, collectHouseStep, ih, specDeviceFlatten]
    | some house =>
      cases hr : house.rooms with
      | none =>
        simp [List.foldl_cons, collectHouseStep, hr, ih, specDeviceFlatten]
      | some rooms =>
        simp [List.foldl_cons, collectHouseStep, hr, ih, specDeviceFlatten,
          collectRoomStep_fold, List.append_assoc]

/-! ## Claims -/

/-- C10: `_map_internal_role_to_api` is total on strings and always returns
one of "Master", "SlaveOppositeMaster", "SlaveEqualMaster",
"NotConfigured"; every input not recognized after lowercasing and stripping
maps to the default "SlaveOppositeMaster", and the internal role "slave"
maps to "SlaveOppositeMaster". -/
theorem C10_role_map_total (s : String) :
    (_map_internal_role_to_api s = "Master" ∨
      _map_internal_role_to_api s = "SlaveOppositeMaster" ∨
      _map_internal_role_to_api s = "SlaveEqualMaster" ∨
      _map_internal_role_to_api s = "NotConfigured") ∧
    (pyStrip (pyLower s) ≠ "master" → pyStrip (pyLower s) ≠ "slave" →
      pyStrip (pyLower s) ≠ "slaveequalmaster" →
      pyStrip (pyLower s) ≠ "slaveoppositemaster" →
      pyStrip (pyLower s) ≠ "notconfigured" →
      _map_internal_role_to_api s = "SlaveOppositeMaster") ∧
    _map_internal_role_to_api "slave" = "SlaveOppositeMaster" := by
  refine ⟨?_, ?_, by decide⟩ <;> simp only [_map_internal_role_to_api]
  · split_ifs <;> simp
  · intro h1 h2 h3 h4 h5
    split_ifs <;> simp_all

/-- Witness for C10 at the unrecognized input `"weird"`. -/
theorem C10_role_map_total_witness :
    _map_internal_role_to_api "weird" = "SlaveOppositeMaster" :=
  (C10_role_map_total "weird").2.1 (by decide) (by decide) (by decide)
    (by decide) (by decide)

/-- C6: `async_get_data` returns the flat list of all non-null devices from
every room of every house, in house-then-room traversal order, with no room
or house structure attached; it returns the empty list when the API reports
no houses. -/
theorem C6_flatten (house_list : List (Option ApiHouse)) :
    async_get_data house_list = specDeviceFlatten house_list ∧
    (house_list = [] → async_get_data house_list = []) := by
  constructor
  · unfold async_get_data collectDevices
    by_cases h : house_list.isEmpty
    · rw [if_pos h]
      rw [List.isEmpty_iff] at h
      subst h
      rfl
    · rw [if_neg h, collectHouseStep_fold, List.nil_append]
  · intro h
    subst h
    rfl

/-- Witness for C6 at the empty house list. -/
theorem C6_flatten_witness : async_get_data [] = [] :=
  (C6_flatten []).2 rfl

/-- C8 (refuted): `_process_device_zone_data` is not idempotent.  Processing
the single-slave device list twice leaves the zone-0 slave list
`["S1", "S1"]`, while a single run leaves `["S1"]`: the method appends to
`_zone_slaves` without resetting it, although `_async_update_data`
re-invokes it periodically. -/
theorem C8_process_zone_not_idempotent :
    (processDeviceZoneData [⟨"S1", "d", some 0, some "slave"⟩]
        (processDeviceZoneData [⟨"S1", "d", some 0, some "slave"⟩]
          emptyZoneState)).zone_slaves 0 = some ["S1", "S1"] ∧
    (processDeviceZoneData [⟨"S1", "d", some 0, some "slave"⟩]
        emptyZoneState).zone_slaves 0 = some ["S1"] := by
  decide

/-- C7: in `_ensure_client`, an authentication `Failure` raises
`AmbientikaApiClientAuthenticationError` immediately, with no retry (the
remaining attempt oracle is returned untouched), whether it happens on the
first or the second attempt; connection/timeout errors are retried up to
`maxRetries = 2` attempts (sleeping `backoffWaitTime 1 = 8` seconds before
the retry), after which `AmbientikaApiClientError` is raised with both the
session and the API client reset to `None`. -/
theorem C7_ensure_client (sessionSet : Bool) (rest : List AuthAttempt) :
    ensureClient false sessionSet (AuthAttempt.authFailure :: rest) =
      some (EnsureResult.authError, false, false, rest) ∧
    ensureClient false sessionSet
        (AuthAttempt.connError :: AuthAttempt.authFailure :: rest) =
      some (EnsureResult.authError, false, false, rest) ∧
    ensureClient false sessionSet
        (AuthAttempt.connError :: AuthAttempt.connError :: rest) =
      some (EnsureResult.apiError, false, false, rest) ∧
    ensureClient false sessionSet
        (AuthAttempt.connError :: AuthAttempt.success :: rest) =
      some (EnsureResult.ok, true, true, rest) ∧
    maxRetries = 2 ∧ backoffWaitTime 1 = 8 :=
  ⟨rfl, rfl, rfl, rfl, rfl, rfl⟩

/-- C1: in `_async_update_data`, when `_cached_data` is set and less than
`_min_time_between_updates = 30` seconds elapsed since `_last_update_time`,
the cached list is returned with hub state and fetch oracle untouched (the
API is not contacted: the result holds for every oracle); otherwise, when
the API yields a device list, it is stored in `_cached_data`,
`_last_update_time` is set to the current time, and the stored list is
returned. -/
theorem C1_cache_ttl (st : HubState) (currentTime : Int) :
    (∀ (cached : List Device) (fetches : List FetchResult),
      st.cachedData = some cached →
      currentTime - st.lastUpdateTime < minTimeBetweenUpdates →
      asyncUpdateData st currentTime fetches =
        some (UpdateOutcome.ok cached, st, fetches)) ∧
    (∀ (devices : List Device) (rest : List FetchResult),
      ¬ (st.cachedData.isSome ∧
          currentTime - st.lastUpdateTime < minTimeBetweenUpdates) →
      asyncUpdateData st currentTime (FetchResult.ok devices :: rest) =
        some (UpdateOutcome.ok devices,
          { st with cachedData := some devices,
                    lastUpdateTime := currentTime }, rest)) := by
  constructor
  · intro cached fetches hc hlt
    unfold asyncUpdateData
    rw [if_pos ⟨by simp [hc], hlt⟩]
    simp [hc]
  · intro devices rest hmiss
    unfold asyncUpdateData
    rw [if_neg hmiss]

/-- Witness for C1: a cache hit at 10 seconds, and a fetch on an empty
cache. -/
theorem C1_cache_ttl_witness :
    asyncUpdateData ⟨true, 0, some [⟨"A", "a", none, none⟩]⟩ 10
        [FetchResult.apiError] =
      some (UpdateOutcome.ok [⟨"A", "a", none, none⟩],
        ⟨true, 0, some [⟨"A", "a", none, none⟩]⟩, [FetchResult.apiError]) ∧
    asyncUpdateData ⟨true, 0, none⟩ 10 [FetchResult.ok []] =
      some (UpdateOutcome.ok [], ⟨true, 10, some []⟩, []) :=
  ⟨(C1_cache_ttl ⟨true, 0, some [⟨"A", "a", none, none⟩]⟩ 10).1
      [⟨"A", "a", none, none⟩] [FetchResult.apiError] rfl (by decide),
    (C1_cache_ttl ⟨true, 0, none⟩ 10).2 [] [] (by decide)⟩

/-- C2: the error branches of `_async_update_data` map to exactly two
outcomes.  Forward: on a cache miss, an
`AmbientikaApiClientAuthenticationError` from the fetch is re-raised as
`ConfigEntryAuthFailed` with the client closed and set to `None`, and an
`AmbientikaApiClientError` is re-raised as `UpdateFailed`.  Backward: any
non-`ok` outcome of the method is one of exactly these two, produced from
the corresponding fetch error at the head of the oracle. -/
theorem C2_two_error_outcomes (st : HubState) (currentTime : Int) :
    (∀ rest : List FetchResult,
      ¬ (st.cachedData.isSome ∧
          currentTime - st.lastUpdateTime < minTimeBetweenUpdates) →
      asyncUpdateData st currentTime (FetchResult.authError :: rest) =
        some (UpdateOutcome.configEntryAuthFailed,
          { st with client := false, cachedData := none }, rest) ∧
      asyncUpdateData st currentTime (FetchResult.apiError :: rest) =
        some (UpdateOutcome.updateFailed,
          { st with cachedData := none }, rest)) ∧
    (∀ (fetches rem : List FetchResult) (out : UpdateOutcome)
        (st2 : HubState),
      asyncUpdateData st currentTime fetches = some (out, st2, rem) →
      (∀ ds : List Device, out ≠ UpdateOutcome.ok ds) →
      (out = UpdateOutcome.configEntryAuthFailed ∧
        fetches.head? = some FetchResult.authError ∧
        st2.client = false) ∨
      (out = UpdateOutcome.updateFailed ∧
        fetches.head? = some FetchResult.apiError)) := by
  constructor
  · intro rest hmiss
    constructor <;> (unfold asyncUpdateData; rw [if_neg hmiss])
  · intro fetches rem out st2 heq hne
    unfold asyncUpdateData at heq
    split at heq
    · exact absurd (congrArg (fun r => r.1) (Option.some.inj heq)).symm
        (hne _)
    · match fetches, heq with
      | FetchResult.ok ds :: rest, heq =>
        exact absurd (congrArg (fun r => r.1) (Option.some.inj heq)).symm
          (hne ds)
      | FetchResult.authError :: rest, heq =>
        left
        obtain ⟨h1, h2⟩ := Prod.mk.injEq .. ▸ Option.some.inj heq
        exact ⟨h1.symm, rfl, by
          obtain ⟨h3, _⟩ := Prod.mk.injEq .. ▸ h2
          rw [← h3]⟩
      | FetchResult.apiError :: rest, heq =>
        right
        obtain ⟨h1, _⟩ := Prod.mk.injEq .. ▸ Option.some.inj heq
        exact ⟨h1.symm, rfl⟩

/-- Witness for C2: an auth error on a cold cache. -/
theorem C2_two_error_outcomes_witness :
    asyncUpdateData ⟨true, 0, none⟩ 100 [FetchResult.authError] =
      some (UpdateOutcome.configEntryAuthFailed, ⟨false, 0, none⟩, []) ∧
    ((UpdateOutcome.configEntryAuthFailed =
          UpdateOutcome.configEntryAuthFailed ∧
        [FetchResult.authError].head? = some FetchResult.authError ∧
        (⟨false, 0, none⟩ : HubState).client = false) ∨
      (UpdateOutcome.configEntryAuthFailed = UpdateOutcome.updateFailed ∧
        [FetchResult.authError].head? = some FetchResult.apiError)) :=
  ⟨((C2_two_error_outcomes ⟨true, 0, none⟩ 100).1 [] (by decide)).1,
    (C2_two_error_outcomes ⟨true, 0, none⟩ 100).2 [FetchResult.authError]
      [] UpdateOutcome.configEntryAuthFailed ⟨false, 0, none⟩ (by decide)
      (by intro ds h; cases h)⟩

/-- C3: on every error exit of `_async_update_data`, the cache is cleared
and nothing else changes: the resulting state is exactly the input state
with `cachedData := none` (plus `client := false` on the authentication
branch only), `lastUpdateTime` is untouched, and exactly one fetch is
consumed (`rem = fetches.tail`): no retry happens inside the method. -/
theorem C3_error_exit_state (st : HubState) (currentTime : Int)
    (fetches rem : List FetchResult) (out : UpdateOutcome)
    (st2 : HubState)
    (heq : asyncUpdateData st currentTime fetches = some (out, st2, rem)) :
    (out = UpdateOutcome.configEntryAuthFailed →
      st2 = { st with client := false, cachedData := none } ∧
      st2.lastUpdateTime = st.lastUpdateTime ∧ rem = fetches.tail) ∧
    (out = UpdateOutcome.updateFailed →
      st2 = { st with cachedData := none } ∧
      st2.client = st.client ∧
      st2.lastUpdateTime = st.lastUpdateTime ∧ rem = fetches.tail) := by
  unfold asyncUpdateData at heq
  split at heq
  · simp only [Option.some.injEq, Prod.mk.injEq] at heq
    obtain ⟨h1, h2, h3⟩ := heq
    subst h1
    constructor <;> (intro hout; cases hout)
  · cases fetches with
    | nil => simp at heq
    | cons f rest =>
      cases f with
      | ok ds =>
        simp only [Option.some.injEq, Prod.mk.injEq] at heq
        obtain ⟨h1, h2, h3⟩ := heq
        subst h1
        constructor <;> (intro hout; cases hout)
      | authError =>
        simp only [Option.some.injEq, Prod.mk.injEq] at heq
        obtain ⟨h1, h2, h3⟩ := heq
        subst h1; subst h2; subst h3
        exact ⟨fun _ => ⟨rfl, rfl, rfl⟩, fun hout => nomatch hout⟩
      | apiError =>
        simp only [Option.some.injEq, Prod.mk.injEq] at heq
        obtain ⟨h1, h2, h3⟩ := heq
        subst h1; subst h2; subst h3
        exact ⟨(fun hout => nomatch hout), fun _ => ⟨rfl, rfl, rfl, rfl⟩⟩

/-- Witness for C3: the API-error branch at a concrete state. -/
theorem C3_error_exit_state_witness :
    ⟨true, 7, none⟩ =
      ({ client := true, lastUpdateTime := 7, cachedData := none } :
        HubState) ∧
    (true : Bool) = true ∧ (7 : Int) = 7 ∧
    ([] : List FetchResult) = [FetchResult.apiError].tail :=
  (C3_error_exit_state ⟨true, 7, some []⟩ 100 [FetchResult.apiError] []
      UpdateOutcome.updateFailed ⟨true, 7, none⟩ (by decide)).2 rfl

/-- One step of the zone loop, characterized pointwise: the device's role
decides whether it is recorded as its zone's master or appended to the
zone's slave list, and no other key changes (initializing an absent slave
list to `[]` is invisible through `getD []`). -/
theorem processDeviceZone_spec (st : ZoneState) (d : Device) :
    (∀ z : Nat, (processDeviceZone st d).zone_masters z =
      if pyLower (d.role.getD "") = "master" ∧ z = d.zone_index.getD 0 then
        some d.serial_number
      else st.zone_masters z) ∧
    (∀ z : Nat, ((processDeviceZone st d).zone_slaves z).getD [] =
      if (pyLower (d.role.getD "") = "slave" ∨
            pyLower (d.role.getD "") = "slaveequalmaster") ∧
          z = d.zone_index.getD 0 then
        ((st.zone_slaves z).getD []) ++ [d.serial_number]
      else (st.zone_slaves z).getD []) := by
  constructor <;> intro z <;>
    by_cases hr1 : pyLower (d.role.getD "") = "master" <;>
    by_cases hr2 : pyLower (d.role.getD "") = "slave" ∨
      pyLower (d.role.getD "") = "slaveequalmaster" <;>
    by_cases hzz : z = d.zone_index.getD 0 <;>
    cases hz : st.zone_slaves (d.zone_index.getD 0) <;>
    simp_all [processDeviceZone, setMap]

/-- Folding the zone loop over devices whose serials avoid `S` (an
over-approximation of the serials already recorded) keeps the master of a
zone out of that zone's slave list. -/
theorem processDeviceZoneData_no_overlap :
    ∀ (devices : List Device) (st : ZoneState) (S : String → Prop),
      (∀ z s, st.zone_masters z = some s → S s) →
      (∀ z s, s ∈ (st.zone_slaves z).getD [] → S s) →
      (∀ z s, st.zone_masters z = some s → s ∉ (st.zone_slaves z).getD []) →
      (∀ d ∈ devices, ¬ S d.serial_number) →
      List.Pairwise (fun a b => a.serial_number ≠ b.serial_number)
        devices →
      ∀ z s, (processDeviceZoneData devices st).zone_masters z = some s →
        s ∉ ((processDeviceZoneData devices st).zone_slaves z).getD [] := by
  intro devices
  induction devices with
  | nil => intro st S _ _ hms _ _; exact hms
  | cons d ds ih =>
    intro st S hm hs hms hnew hpw
    obtain ⟨hm1, hs1⟩ := processDeviceZone_spec st d
    have hdS : ¬ S d.serial_number := hnew d (List.mem_cons_self d ds)
    have hpw2 := List.pairwise_cons.mp hpw
    refine ih (processDeviceZone st d) (fun s => S s ∨ s = d.serial_number)
      ?_ ?_ ?_ ?_ hpw2.2
    · intro z s h
      rw [hm1 z] at h
      by_cases hc : pyLower (d.role.getD "") = "master" ∧
        z = d.zone_index.getD 0
      · rw [if_pos hc] at h
        exact Or.inr (Option.some.inj h).symm
      · rw [if_neg hc] at h
        exact Or.inl (hm z s h)
    · intro z s h
      rw [hs1 z] at h
      by_cases hc : (pyLower (d.role.getD "") = "slave" ∨
          pyLower (d.role.getD "") = "slaveequalmaster") ∧
          z = d.zone_index.getD 0
      · rw [if_pos hc] at h
        rcases List.mem_append.mp h with h | h
        · exact Or.inl (hs z s h)
        · exact Or.inr (by simpa using h)
      · rw [if_neg hc] at h
        exact Or.inl (hs z s h)
    · intro z s h hmem
      rw [hm1 z] at h
      rw [hs1 z] at hmem
      by_cases hcm : pyLower (d.role.getD "") = "master" ∧
        z = d.zone_index.getD 0
      · rw [if_pos hcm] at h
        have hserial : s = d.serial_number := (Option.some.inj h).symm
        have hnc : ¬ ((pyLower (d.role.getD "") = "slave" ∨
            pyLower (d.role.getD "") = "slaveequalmaster") ∧
            z = d.zone_index.getD 0) := by
          rintro ⟨h1 | h1, _⟩ <;> rw [hcm.1] at h1 <;>
            exact absurd h1 (by decide)
        rw [if_neg hnc] at hmem
        exact hdS (hserial ▸ hs z s hmem)
      · rw [if_neg hcm] at h
        by_cases hcs : (pyLower (d.role.getD "") = "slave" ∨
            pyLower (d.role.getD "") = "slaveequalmaster") ∧
            z = d.zone_index.getD 0
        · rw [if_pos hcs] at hmem
          rcases List.mem_append.mp hmem with hmem | hmem
          · exact hms z s h hmem
          · have hserial : s = d.serial_number := by simpa using hmem
            exact hdS (hserial ▸ hm z s h)
        · rw [if_neg hcs] at hmem
          exact hms z s h hmem
    · intro e he hS
      rcases hS with hS | hS
      · exact hnew e (List.mem_cons_of_mem d he) hS
      · exact hpw2.1 e he hS.symm

/-- C9: after a single run of `_process_device_zone_data` on a device list
with pairwise-distinct serials (from a freshly initialised hub), no serial
is both the recorded master and a slave of the same zone, and
`get_device_role_in_zone` classifies every serial as "Master" exactly when
it is the recorded master of its zone, "Slave" exactly when it is in that
zone's slave list, and "Unknown" otherwise. -/
theorem C9_zone_role_classification (devices : List Device)
    (hpw : List.Pairwise (fun a b => a.serial_number ≠ b.serial_number)
      devices) :
    (∀ z s,
      (processDeviceZoneData devices emptyZoneState).zone_masters z =
        some s →
      s ∉ get_zone_slaves (processDeviceZoneData devices emptyZoneState)
        z) ∧
    (∀ s,
      (get_device_role_in_zone (processDeviceZoneData devices emptyZoneState)
          s = "Master" ↔
        (processDeviceZoneData devices emptyZoneState).zone_masters
          (get_device_zone (processDeviceZoneData devices emptyZoneState) s)
          = some s) ∧
      (get_device_role_in_zone (processDeviceZoneData devices emptyZoneState)
          s = "Slave" ↔
        s ∈ get_zone_slaves (processDeviceZoneData devices emptyZoneState)
          (get_device_zone (processDeviceZoneData devices emptyZoneState)
            s)) ∧
      (get_device_role_in_zone (processDeviceZoneData devices emptyZoneState)
          s = "Unknown" ↔
        ((processDeviceZoneData devices emptyZoneState).zone_masters
            (get_device_zone (processDeviceZoneData devices emptyZoneState)
              s) ≠ some s ∧
          s ∉ get_zone_slaves
            (processDeviceZoneData devices emptyZoneState)
            (get_device_zone (processDeviceZoneData devices emptyZoneState)
              s)))) := by
  have hinv := processDeviceZoneData_no_overlap devices emptyZoneState
    (fun _ => False)
    (by intro z s h; simp [emptyZoneState] at h)
    (by intro z s h; simp [emptyZoneState] at h)
    (by intro z s h; simp [emptyZoneState] at h)
    (fun _ _ h => h) hpw
  refine ⟨fun z s h => hinv z s h, fun s => ?_⟩
  unfold get_device_role_in_zone
  by_cases hm : (processDeviceZoneData devices emptyZoneState).zone_masters
      (get_device_zone (processDeviceZoneData devices emptyZoneState) s) =
      some s
  · rw [if_pos hm]
    refine ⟨⟨fun _ => hm, fun _ => rfl⟩, ?_, ?_⟩
    · constructor
      · intro h
        exact absurd h (by decide)
      · intro hmem
        exact absurd hmem (hinv _ s hm)
    · constructor
      · intro h
        exact absurd h (by decide)
      · intro h
        exact absurd hm h.1
  · rw [if_neg hm]
    by_cases hsl : s ∈ get_zone_slaves
        (processDeviceZoneData devices emptyZoneState)
        (get_device_zone (processDeviceZoneData devices emptyZoneState) s)
    · rw [if_pos hsl]
      refine ⟨⟨fun h => absurd h (by decide), fun h => absurd h hm⟩,
        ⟨fun _ => hsl, fun _ => rfl⟩,
        ⟨fun h => absurd h (by decide), fun h => absurd hsl h.2⟩⟩
    · rw [if_neg hsl]
      exact ⟨⟨fun h => absurd h (by decide), fun h => absurd h hm⟩,
        ⟨fun h => absurd h (by decide), fun h => absurd h hsl⟩,
        ⟨fun _ => ⟨hm, hsl⟩, fun _ => rfl⟩⟩

/-- Witness for C9 on the two-device fixture. -/
theorem C9_zone_role_classification_witness :
    get_device_role_in_zone
        (processDeviceZoneData fixtureZoneDevices emptyZoneState) "S" =
      "Slave" :=
  ((C9_zone_role_classification fixtureZoneDevices (by decide)).2 "S").2.1.mpr
    (by decide)

/-- A zone device whose role the code can read is updated to exactly the
claim's role rule. -/
theorem updateZoneDevice_eq_spec (o n r : String) (zd : ZoneDeviceD)
    (h : zoneDeviceRoleReadable o n zd = true) :
    updateZoneDevice o n r zd = some (specZoneDevice o n r zd) := by
  unfold zoneDeviceRoleReadable at h
  unfold updateZoneDevice specZoneDevice roleFor
  by_cases h1 : zd.serialNumber = some n
  · simp [h1]
  · by_cases h2 : zd.serialNumber = some o
    · have hon : o ≠ n := fun hh => h1 (by rw [h2, hh])
      simp [h1, h2, hon]
    · cases hr : zd.role with
      | none => simp [h1, h2, hr] at h
      | some role_str => simp [h1, h2, hr]

/-- A zone room whose devices are all readable is updated to exactly the
claim's shape. -/
theorem updateZoneRoom_eq_spec (o n r : String) (zr : ZoneRoomD)
    (h : ∀ zd ∈ zr.devices.getD [],
      zoneDeviceRoleReadable o n zd = true) :
    updateZoneRoom o n r zr = some (specZoneRoom o n r zr) := by
  unfold updateZoneRoom specZoneRoom
  by_cases he : (zr.devices.getD []).isEmpty
  · simp [he]
  · have hmap := mapOrNone_eq_map (updateZoneDevice o n r)
      (specZoneDevice o n r) (zr.devices.getD [])
      (fun zd hzd => updateZoneDevice_eq_spec o n r zd (h zd hzd))
    simp [he, hmap]

/-- A zone whose devices are all readable builds to exactly the claim's
shape. -/
theorem buildZoneConfig_eq_spec (o n r : String) (zone : ZoneD)
    (h : ∀ zr ∈ zone.rooms.getD [], ∀ zd ∈ zr.devices.getD [],
      zoneDeviceRoleReadable o n zd = true) :
    buildZoneConfig o n r zone = some (specZoneConfig o n r zone) := by
  unfold buildZoneConfig specZoneConfig
  by_cases he : (zone.rooms.getD []).isEmpty
  · simp [he]
  · have hmap := mapOrNone_eq_map (updateZoneRoom o n r)
      (specZoneRoom o n r) (zone.rooms.getD [])
      (fun zr hzr => updateZoneRoom_eq_spec o n r zr (h zr hzr))
    simp [he, hmap]

/-- The rooms-array device builder agrees with the claim's rule applied to
`serial_number or serialNumber` and the `'slave'`-defaulted role. -/
theorem buildDeviceConfig_eq_spec (rid : Option Nat) (o n r : String)
    (d : RoomDeviceD) :
    buildDeviceConfig rid o n r d = specRoomDevice rid o n r d := by
  simp [buildDeviceConfig, specRoomDevice, roleFor]

/-- The rooms-array room builder agrees with the claim's shape. -/
theorem buildRoomConfig_eq_spec (hid : Option Nat) (o n r : String)
    (room : HouseRoomD) :
    buildRoomConfig hid o n r room = specRoomConfig hid o n r room := by
  simp [buildRoomConfig, specRoomConfig, buildDeviceConfig_eq_spec]

/-- C4 counterexample: the claim fails as stated.  For this house —
which does contain a device with the new master's serial `"NEW"` and
distinct master serials — `_create_house_config_with_updated_roles`
returns `None` rather than any configuration, because a zone device
(serial `"X"`) has no role, so the zones loop calls
`_map_internal_role_to_api(None)` and the resulting `AttributeError`
sends the whole function into its `except` branch. -/
theorem C4_house_config_counterexample :
    _create_house_config_with_updated_roles fixtureHouseBad "OLD" "NEW"
        "slave" = none ∧
    ("OLD" : String) ≠ "NEW" := by
  decide

/-- C4 (amended): provided every device in the zones array either carries a
role or is one of the two master serials, the function returns exactly the
configuration in which the single rule `roleFor` (Master for the new
master's serial, the API mapping of `new_master_original_role` for the old
master's serial, the mapped existing role otherwise) is applied to the
devices of both the rooms array (serial read as `serial_number or
serialNumber`, role defaulting to `'slave'`) and the zones array (serial
read as `serialNumber`); a role-less non-master zone device instead makes
it return `None`. -/
theorem C4_house_config_roles (house : HouseD)
    (o n r : String) (h : zoneRolesOk house o n = true) :
    _create_house_config_with_updated_roles house o n r =
      some (specHouseConfig house o n r) := by
  unfold zoneRolesOk at h
  simp only [List.all_eq_true] at h
  unfold _create_house_config_with_updated_roles specHouseConfig
  cases hz : house.zones with
  | none => simp [buildRoomConfig_eq_spec]
  | some zs =>
    rw [hz] at h
    by_cases he : zs.isEmpty
    · simp [he, buildRoomConfig_eq_spec]
    · have hall : ∀ z ∈ zs,
          buildZoneConfig o n r z = some (specZoneConfig o n r z) := by
        intro z hzm
        exact buildZoneConfig_eq_spec o n r z fun zr hzr zd hzd =>
          h z hzm zr hzr zd hzd
      have hmap := mapOrNone_eq_map (buildZoneConfig o n r)
        (specZoneConfig o n r) zs hall
      simp [he, hmap, buildRoomConfig_eq_spec]

/-- Witness for C4 (amended) on the all-roles-present fixture house. -/
theorem C4_house_config_roles_witness :
    _create_house_config_with_updated_roles fixtureHouseOk "OLD" "NEW"
        "slave" =
      some (specHouseConfig fixtureHouseOk "OLD" "NEW" "slave") :=
  C4_house_config_roles fixtureHouseOk "OLD" "NEW" "slave" (by decide)

/-- C5 counterexample: the claim fails as stated.  With the HTTP oracle
that answers `Success` to the very first call only, the first strategy's
first HTTP call (POST `devices/NEW/role`) yields `Success`, yet
`_try_alternative_role_update` does not return `True` there: the
strategy's second POST fails, a rollback POST is issued, every later
strategy is still attempted (the call log ends with the three zone
endpoints), and the procedure returns `False`. -/
theorem C5_first_success_counterexample :
    (fun i => decide (i = 0)) 0 = true ∧
    (tryAlternativeRoleUpdate "OLD" "NEW" (some 1) (some 1)
        (fun i => decide (i = 0))).1 = false ∧
    (tryAlternativeRoleUpdate "OLD" "NEW" (some 1) (some 1)
        (fun i => decide (i = 0))).2.2 =
      [devicesRoleEndpoint "NEW", devicesRoleEndpoint "OLD",
       devicesRoleEndpoint "NEW", zoneMasterEndpoint "1",
       zoneConfigurationEndpoint "1", deviceZoneConfigEndpoint "1"] := by
  decide

/-- C5 (amended): the strategies run in the fixed order individual
device-role POSTs, house PUT, zone endpoints, and the procedure returns
`True` at the first strategy that succeeds, attempting no later strategy —
where the device-role strategy succeeds only when both of its POSTs yield
`Success` (a lone first-POST `Success` is rolled back and counts as
failure), the house-PUT strategy always fails before issuing any HTTP call
(the client has no `get_houses` method), and the zone strategy succeeds
when the devices share a zone and one of its three endpoint POSTs yields
`Success`; the procedure returns `False` exactly when every strategy
fails.  Stated over the call oracle: indices 0–1 are the role POSTs, index
2 the rollback when needed, and the zone endpoints follow. -/
theorem C5_alternative_update_order (oS nS : String)
    (oz nz : Option Nat) (resp : Nat → Bool) :
    ((tryAlternativeRoleUpdate oS nS oz nz resp).1 = true ↔
      ((resp 0 = true ∧ resp 1 = true) ∨
        (oz = nz ∧ resp 0 = true ∧ resp 1 = false ∧
          (resp 3 = true ∨ resp 4 = true ∨ resp 5 = true)) ∨
        (oz = nz ∧ resp 0 = false ∧
          (resp 1 = true ∨ resp 2 = true ∨ resp 3 = true)))) ∧
    (resp 0 = true → resp 1 = true →
      tryAlternativeRoleUpdate oS nS oz nz resp =
        (true, 2, [devicesRoleEndpoint nS, devicesRoleEndpoint oS])) ∧
    (oz = nz → resp 0 = true → resp 1 = false → resp 3 = false →
      resp 4 = false → resp 5 = false →
      tryAlternativeRoleUpdate oS nS oz nz resp =
        (false, 6,
          [devicesRoleEndpoint nS, devicesRoleEndpoint oS,
           devicesRoleEndpoint nS, zoneMasterEndpoint (zoneIndexStr oz),
           zoneConfigurationEndpoint (zoneIndexStr oz),
           deviceZoneConfigEndpoint (zoneIndexStr oz)])) := by
  cases h0 : resp 0 <;> cases h1 : resp 1 <;> by_cases hz : oz = nz <;>
    cases h2 : resp 2 <;> cases h3 : resp 3 <;> cases h4 : resp 4 <;>
    cases h5 : resp 5 <;>
    simp [tryAlternativeRoleUpdate, tryDeviceRoleUpdate, tryHousePutUpdate,
      tryZoneConfigUpdate, h0, h1, h2, h3, h4, h5, hz]

/-- Witness for C5 (amended): both role POSTs succeed, so the procedure
stops after two calls. -/
theorem C5_alternative_update_order_witness :
    tryAlternativeRoleUpdate "OLD" "NEW" (some 1) (some 1)
        (fun i => decide (i ≤ 1)) =
      (true, 2, [devicesRoleEndpoint "NEW", devicesRoleEndpoint "OLD"]) :=
  (C5_alternative_update_order "OLD" "NEW" (some 1) (some 1)
      (fun i => decide (i ≤ 1))).2.1 (by decide) (by decide)
